import Mathlib

/-!
Verification of the streaming run controller in
`src/frontend/app/page.tsx` (Agentic DocChat frontend).

The embedding below translates, state-field by state-field, the React
component state (`events`, `finalResult`, `errorMsg`, `isStreaming`,
the `eventSourceRef`) and the controller functions (`resetRun`,
`stopStream`, `startStream`, the `agent`/`final`/`onerror` stream
handlers, and the derived `overallStatus`).  JavaScript truthiness on
optional strings is modelled explicitly: a string option is falsy when
it is `none` or `some ""`.  Open `EventSource` connections are counted
by `openStreams`; `refOpen` records whether `eventSourceRef.current`
points at an open connection.
-/

namespace AgenticDochat

/-- Parsed JSON body of an `agent` stream frame.  `agent`/`status` are
`Option String` so that a missing field (`undefined`) and an empty
string — the two falsy cases the source distinguishes by truthiness —
are both representable.  A whole frame that fails `safeJsonParse` is
`none` at the call sites below. -/
structure StageData where
  agent : Option String
  status : Option String
  summary : Option String
  ms : Option Int
  deriving DecidableEq

/-- One entry of the component's `events` record (type `AgentEvent` in
the source): the last stored per-stage state. -/
structure AgentEvent where
  agent : String
  status : String
  summary : Option String
  ms : Option Int
  details : Option StageData
  deriving DecidableEq

/-- `SourceItem` from the source; `metadata` is an opaque string map. -/
structure SourceItem where
  content : String
  metadata : List (String × String)
  deriving DecidableEq

/-- `FinalPayload` from the source: body of a `final` stream frame. -/
structure FinalPayload where
  question : String
  is_relevant : Option Bool
  draft_answer : Option String
  verification_report : Option String
  sources : Option (List SourceItem)
  error : Option String
  deriving DecidableEq

/-- The component state of `Page` that the controller reads and
writes.  `openStreams` counts `EventSource` objects created and not
yet closed; `refOpen` says whether `eventSourceRef.current` is an open
connection. -/
structure ControllerState where
  question : String
  docId : String
  events : String → Option AgentEvent
  finalResult : Option FinalPayload
  errorMsg : String
  isStreaming : Bool
  openStreams : Nat
  refOpen : Bool

/-- JavaScript `String.prototype.trim`: strip whitespace from both
ends.  (Defined over the character list so it is kernel-reducible;
`String.trim` in core is defined by well-founded recursion and does
not reduce.) -/
def jsTrim (s : String) : String :=
  ⟨((s.data.dropWhile Char.isWhitespace).reverse.dropWhile Char.isWhitespace).reverse⟩

/-- The initial per-stage record: the four known stages map to
`{ agent, status: "idle" }`, every other key is absent. -/
def initialEvents : String → Option AgentEvent := fun k =>
  if k = "relevance" ∨ k = "retrieval" ∨ k = "research" ∨ k = "verify" then
    some { agent := k, status := "idle", summary := none, ms := none, details := none }
  else none

/-- `resetRun()`: clears `errorMsg`, `finalResult` and resets the
`events` record to the four idle stages.  It touches nothing else — in
particular not the stream. -/
def resetRun (st : ControllerState) : ControllerState :=
  { st with errorMsg := "", finalResult := none, events := initialEvents }

/-- `stopStream()`: closes the connection held in `eventSourceRef`
(when there is one) and clears `isStreaming`. -/
def stopStream (st : ControllerState) : ControllerState :=
  let st1 :=
    if st.refOpen then
      { st with openStreams := st.openStreams - 1, refOpen := false }
    else st
  { st1 with isStreaming := false }

/-- `startStream()`: runs `resetRun` first, then validates, then marks
`relevance` running, sets `isStreaming`, and opens a new `EventSource`
whose handle overwrites `eventSourceRef.current`.  The previous
connection, if any, is never closed here. -/
def startStream (st : ControllerState) : ControllerState :=
  let st1 := resetRun st
  if jsTrim st1.question = "" then { st1 with errorMsg := "Please enter a question." }
  else if st1.docId = "" then { st1 with errorMsg := "Please select a document." }
  else
    let st2 := { st1 with
      events := fun k =>
        if k = "relevance" then
          (st1.events k).map (fun e : AgentEvent => { e with status := "running" })
        else st1.events k,
      isStreaming := true }
    { st2 with openStreams := st2.openStreams + 1, refOpen := true }

/-- `data.status || "running"`: a falsy status (absent or empty)
defaults to `"running"`. -/
def coerceStatus : Option String → String
  | none => "running"
  | some s => if s = "" then "running" else s

/-- The record stored under `data.agent` by the `agent` listener:
`{ agent, status, summary: data.summary, ms: data.ms, details: data }`. -/
def storedEvent (a : String) (d : StageData) : AgentEvent :=
  { agent := a, status := coerceStatus d.status, summary := d.summary,
    ms := d.ms, details := some d }

/-- The `agent` event listener.  `if (!data?.agent) return;` drops an
unparseable frame and any frame whose `agent` field is falsy;
otherwise the frame overwrites the entry keyed by `data.agent`
(whatever that string is). -/
def handleAgent (frame : Option StageData) (st : ControllerState) : ControllerState :=
  match frame with
  | none => st
  | some d =>
    match d.agent with
    | none => st
    | some a =>
      if a = "" then st
      else { st with events := fun k => if k = a then some (storedEvent a d) else st.events k }

/-- The `final` event listener: `if (data?.error)` surfaces the error
text, `else if (data)` stores the payload as the result, and in every
case (including an unparseable frame) `stopStream()` runs. -/
def handleFinal (frame : Option FinalPayload) (st : ControllerState) : ControllerState :=
  let st1 :=
    match frame with
    | none => st
    | some d =>
      match d.error with
      | none => { st with finalResult := some d }
      | some e => if e = "" then { st with finalResult := some d } else { st with errorMsg := e }
  stopStream st1

/-- The message written by the `onerror` handler. -/
def streamErrorMessage : String :=
  "Stream error (backend unreachable or crashed). Check FastAPI logs."

/-- `es.onerror`: stops the stream, sets the transport-failure
message, and rewrites `verify`'s status to `"error"` unless it was
already `"done"`. -/
def handleError (st : ControllerState) : ControllerState :=
  let st1 := stopStream st
  let st2 := { st1 with errorMsg := streamErrorMessage }
  { st2 with events := fun k =>
      if k = "verify" then
        (st2.events k).map (fun e : AgentEvent =>
          { e with status := if e.status = "done" then "done" else "error" })
      else st2.events k }

/-- The derived `overallStatus` memo: RUNNING / ERROR / DONE / IDLE. -/
def overallStatus (st : ControllerState) : String :=
  if st.isStreaming then "RUNNING"
  else if st.errorMsg ≠ "" then "ERROR"
  else match st.finalResult with
    | some _ => "DONE"
    | none => "IDLE"

/-- External stimuli of the component: the user edits the inputs or
clicks Run / Stop / Reset, or the live stream delivers an `agent`
frame, a `final` frame, or a transport error. -/
inductive Action where
  | setQuestion (q : String)
  | setDocId (d : String)
  | clickRun
  | clickStop
  | clickReset
  | agentEvt (d : Option StageData)
  | finalEvt (d : Option FinalPayload)
  | errorEvt
  deriving DecidableEq

/-- One step of the component.  Stream callbacks are attached to the
connection held in `eventSourceRef`, so they fire only while that
connection is open (`refOpen`). -/
def step (st : ControllerState) : Action → ControllerState
  | .setQuestion q => { st with question := q }
  | .setDocId d => { st with docId := d }
  | .clickRun => startStream st
  | .clickStop => stopStream st
  | .clickReset => resetRun st
  | .agentEvt d => if st.refOpen then handleAgent d st else st
  | .finalEvt d => if st.refOpen then handleFinal d st else st
  | .errorEvt => if st.refOpen then handleError st else st

/-- Initial component state: empty inputs, idle stages, no result, no
error, no stream. -/
def initState : ControllerState :=
  { question := "", docId := "", events := initialEvents, finalResult := none,
    errorMsg := "", isStreaming := false, openStreams := 0, refOpen := false }

/-- Fold a list of actions from the initial state. -/
def runActions (acts : List Action) : ControllerState :=
  acts.foldl step initState

/-- The UI guard on a stimulus: the Run button is rendered with
`disabled={isStreaming || !question.trim() || !docId}`, so `clickRun`
can only happen when not streaming and both inputs are non-blank.
Every other stimulus is always possible. -/
def enabled (st : ControllerState) : Action → Prop
  | .clickRun => st.isStreaming = false ∧ jsTrim st.question ≠ "" ∧ st.docId ≠ ""
  | _ => True

/-- States reachable from the initial state through stimuli the UI
actually permits. -/
inductive ReachableUI : ControllerState → Prop where
  | init : ReachableUI initState
  | next {st : ControllerState} (a : Action) :
      ReachableUI st → enabled st a → ReachableUI (step st a)

/-! ## Helper lemmas -/

/-- `stopStream` clears the streaming flag and the ref, decrements the
open-connection count exactly when the ref held one, and leaves all
other component state alone. -/
theorem stopStream_spec (st : ControllerState) :
    (stopStream st).isStreaming = false ∧
    (stopStream st).refOpen = false ∧
    (stopStream st).openStreams = (if st.refOpen then st.openStreams - 1 else st.openStreams) ∧
    (stopStream st).events = st.events ∧
    (stopStream st).errorMsg = st.errorMsg ∧
    (stopStream st).finalResult = st.finalResult := by
  cases h : st.refOpen <;> simp [stopStream, h]

/-- The `agent` listener never touches the stream fields. -/
theorem handleAgent_stream_fields (frame : Option StageData) (st : ControllerState) :
    (handleAgent frame st).openStreams = st.openStreams ∧
    (handleAgent frame st).refOpen = st.refOpen ∧
    (handleAgent frame st).isStreaming = st.isStreaming := by
  rcases frame with _ | d
  · exact ⟨rfl, rfl, rfl⟩
  · rcases h : d.agent with _ | a
    · simp [handleAgent, h]
    · by_cases ha : a = "" <;> simp [handleAgent, h, ha]

/-- A frame keyed to a different (or falsy) agent leaves the entry at
`a` untouched. -/
theorem handleAgent_events_miss (st : ControllerState) (d : StageData) (a : String)
    (hd : d.agent ≠ some a) :
    (handleAgent (some d) st).events a = st.events a := by
  rcases hb : d.agent with _ | b
  · simp [handleAgent, hb]
  · by_cases he : b = ""
    · simp [handleAgent, hb, he]
    · have hab : a ≠ b := by
        rintro rfl
        exact hd hb
      simp [handleAgent, hb, he, hab]

/-- A frame keyed to agent `a` (with `a` truthy) overwrites the entry
at `a` with the stored event. -/
theorem handleAgent_events_hit (st : ControllerState) (d : StageData) (a : String)
    (ha : d.agent = some a) (hne : a ≠ "") :
    (handleAgent (some d) st).events a = some (storedEvent a d) := by
  simp [handleAgent, ha, hne]

/-- Stream-resource invariant: the ref mirrors `isStreaming` and the
number of open connections is 1 or 0 accordingly. -/
def streamInv (st : ControllerState) : Prop :=
  st.refOpen = st.isStreaming ∧ st.openStreams = (if st.refOpen then 1 else 0)

theorem streamInv_stopStream (st : ControllerState) (h : streamInv st) :
    streamInv (stopStream st) := by
  obtain ⟨h1, h2⟩ := h
  cases hr : st.refOpen <;> rw [hr] at h2 <;> simp at h2 <;>
    simp [streamInv, stopStream, hr, h2]

theorem streamInv_handleFinal (frame : Option FinalPayload) (st : ControllerState)
    (h : streamInv st) : streamInv (handleFinal frame st) := by
  rcases frame with _ | d
  · exact streamInv_stopStream st h
  · rcases he : d.error with _ | e
    · simp only [handleFinal, he]
      exact streamInv_stopStream _ ⟨h.1, h.2⟩
    · simp only [handleFinal, he]
      by_cases h0 : e = ""
      · rw [if_pos h0]
        exact streamInv_stopStream _ ⟨h.1, h.2⟩
      · rw [if_neg h0]
        exact streamInv_stopStream _ ⟨h.1, h.2⟩

theorem streamInv_handleError (st : ControllerState) (h : streamInv st) :
    streamInv (handleError st) := by
  have h1 := streamInv_stopStream st h
  exact h1

/-- Every UI-guarded step preserves the stream-resource invariant. -/
theorem streamInv_step (st : ControllerState) (a : Action)
    (hinv : streamInv st) (hen : enabled st a) : streamInv (step st a) := by
  obtain ⟨h1, h2⟩ := hinv
  cases a with
  | setQuestion q => exact ⟨h1, h2⟩
  | setDocId d => exact ⟨h1, h2⟩
  | clickReset => exact ⟨h1, h2⟩
  | clickStop => exact streamInv_stopStream st ⟨h1, h2⟩
  | clickRun =>
      obtain ⟨hs, hq, hd⟩ := hen
      rw [hs] at h1
      rw [h1] at h2
      simp at h2
      show streamInv (startStream st)
      simp [startStream, resetRun, hq, hd, streamInv, h2]
  | agentEvt d =>
      cases hr : st.refOpen
      · have hid : step st (.agentEvt d) = st := by simp [step, hr]
        rw [hid]
        exact ⟨h1, h2⟩
      · obtain ⟨p1, p2, p3⟩ := handleAgent_stream_fields d st
        have hid : step st (.agentEvt d) = handleAgent d st := by simp [step, hr]
        rw [hid]
        refine ⟨?_, ?_⟩
        · rw [p2, p3]
          exact h1
        · rw [p1, p2]
          exact h2
  | finalEvt d =>
      cases hr : st.refOpen
      · have hid : step st (.finalEvt d) = st := by simp [step, hr]
        rw [hid]
        exact ⟨h1, h2⟩
      · have hid : step st (.finalEvt d) = handleFinal d st := by simp [step, hr]
        rw [hid]
        exact streamInv_handleFinal d st ⟨h1, h2⟩
  | errorEvt =>
      cases hr : st.refOpen
      · have hid : step st .errorEvt = st := by simp [step, hr]
        rw [hid]
        exact ⟨h1, h2⟩
      · have hid : step st .errorEvt = handleError st := by simp [step, hr]
        rw [hid]
        exact streamInv_handleError st ⟨h1, h2⟩

/-- The invariant holds in every state the UI can actually reach. -/
theorem streamInv_reachable {st : ControllerState} (h : ReachableUI st) : streamInv st := by
  induction h with
  | init => exact ⟨rfl, rfl⟩
  | next a _ hen ih => exact streamInv_step _ a ih hen

/-! ## Last-event-per-stage machinery (for the overwrite-semantics claim) -/

/-- Accumulator step selecting the most recent frame keyed to `a`. -/
def lastUpd (a : String) (o : Option StageData) (d : StageData) : Option StageData :=
  if d.agent = some a then some d else o

/-- The last frame in `ds` whose `agent` field is `a`, if any. -/
def lastStageEvent (a : String) (ds : List StageData) : Option StageData :=
  ds.foldl (lastUpd a) none

/-- Feed a list of (parsed) `agent` frames through the listener, in
order. -/
def applyAll (ds : List StageData) (st : ControllerState) : ControllerState :=
  ds.foldl (fun s d => handleAgent (some d) s) st

/-- What the spec says the tracker should hold for stage `a` after the
frames `ds`: the stored form of the last frame for `a`, or the prior
entry `base` when no frame addressed `a`. -/
def trackedAfter (a : String) (ds : List StageData) (base : Option AgentEvent) : Option AgentEvent :=
  match lastStageEvent a ds with
  | some d => some (storedEvent a d)
  | none => base

theorem lastUpd_foldl (a : String) (ds : List StageData) (acc : Option StageData) :
    ds.foldl (lastUpd a) acc
      = match ds.foldl (lastUpd a) none with
        | some x => some x
        | none => acc := by
  induction ds generalizing acc with
  | nil => rfl
  | cons d ds ih =>
    simp only [List.foldl_cons]
    rw [ih (lastUpd a acc d), ih (lastUpd a none d)]
    cases hl : ds.foldl (lastUpd a) none with
    | some x => rfl
    | none =>
      by_cases hd : d.agent = some a <;> simp [lastUpd, hd]

/-! ## Concrete data used by counterexamples and witnesses -/

/-- A state mid-run: question and document chosen, Run clicked. -/
def midRunState : ControllerState :=
  runActions [.setQuestion "q", .setDocId "d", .clickRun]

/-! ## Claim C1 -/

/-- Claim C1, counterexample: invoking `startStream` while a stream is
already open does not close the existing connection — after two
consecutive Run invocations two `EventSource` connections are open at
once, so the at-most-one-open-stream property fails for this sequence
of controller operations. -/
theorem c1_counterexample :
    (runActions [.setQuestion "q", .setDocId "d", .clickRun, .clickRun]).openStreams = 2 ∧
    (runActions [.setQuestion "q", .setDocId "d", .clickRun]).openStreams = 1 := by
  constructor <;> decide

/-- Claim C1 (amended): `startStream` never closes a previously open
stream — a valid start opens a fresh connection on top of whatever was
open (`openStreams` strictly increments).  At most one open stream
exists only because the UI disables the Run button while streaming:
along every UI-guarded action sequence `openStreams ≤ 1` at every
point. -/
theorem c1_at_most_one_stream_guarded (st : ControllerState) :
    (ReachableUI st → st.openStreams ≤ 1) ∧
    (jsTrim st.question ≠ "" → st.docId ≠ "" →
      (startStream st).openStreams = st.openStreams + 1 ∧ (startStream st).refOpen = true) := by
  constructor
  · intro h
    obtain ⟨-, h2⟩ := streamInv_reachable h
    rw [h2]
    by_cases hr : st.refOpen = true <;> simp [hr]
  · intro hq hd
    constructor <;> simp [startStream, resetRun, hq, hd]

/-- Claim C1, witness: the guarded-invariant and stream-opening parts
of the theorem instantiated on a concrete UI-guarded run. -/
theorem c1_witness :
    (step (step (step initState (.setQuestion "q")) (.setDocId "d")) .clickRun).openStreams ≤ 1 ∧
    (startStream (step (step initState (.setQuestion "q")) (.setDocId "d"))).openStreams
      = (step (step initState (.setQuestion "q")) (.setDocId "d")).openStreams + 1 := by
  have hreach : ReachableUI (step (step (step initState (.setQuestion "q")) (.setDocId "d")) .clickRun) :=
    ReachableUI.next .clickRun
      (ReachableUI.next (.setDocId "d")
        (ReachableUI.next (.setQuestion "q") ReachableUI.init trivial) trivial)
      ⟨by decide, by decide, by decide⟩
  exact ⟨(c1_at_most_one_stream_guarded _).1 hreach,
    ((c1_at_most_one_stream_guarded _).2 (by decide) (by decide)).1⟩

/-! ## Claim C2 -/

/-- A completed successful run followed by blanking the question box:
the state just before a validation-failing `startStream` call. -/
def c2Before : ControllerState :=
  runActions
    [.setQuestion "q", .setDocId "d", .clickRun,
     .agentEvt (some { agent := some "relevance", status := some "done",
                       summary := some "Found relevant content", ms := none }),
     .finalEvt (some { question := "q", is_relevant := some true, draft_answer := some "ans",
                       verification_report := none, sources := some [], error := none }),
     .setQuestion "   "]

/-- Claim C2, counterexample: calling `startStream` with a
whitespace-only question from a state holding a finished run does not
leave the tracker, result and phase unchanged — `resetRun` executes
before validation, so the relevance stage drops from `done` to `idle`,
the result is cleared, and the derived phase flips from `DONE` to
`ERROR` (the validation text lands in `errorMsg`). -/
theorem c2_counterexample :
    jsTrim c2Before.question = "" ∧
    c2Before.finalResult ≠ none ∧
    (startStream c2Before).finalResult = none ∧
    (c2Before.events "relevance").map AgentEvent.status = some "done" ∧
    ((startStream c2Before).events "relevance").map AgentEvent.status = some "idle" ∧
    overallStatus c2Before = "DONE" ∧
    overallStatus (startStream c2Before) = "ERROR" ∧
    (startStream c2Before).openStreams = c2Before.openStreams := by
  refine ⟨?_, ?_, ?_, ?_, ?_, ?_, ?_, ?_⟩ <;> decide

/-- Claim C2 (amended): a `startStream` call failing validation (blank
question, or empty documentId) opens no stream, but it is not a no-op:
it first resets the tracker to all-idle and clears the result and
error message, then writes the validation text into `errorMsg` — the
same field the run-level phase is derived from. -/
theorem c2_start_validation_resets_state (st : ControllerState)
    (h : jsTrim st.question = "" ∨ st.docId = "") :
    (startStream st).openStreams = st.openStreams ∧
    (startStream st).isStreaming = st.isStreaming ∧
    (startStream st).refOpen = st.refOpen ∧
    (startStream st).events = initialEvents ∧
    (startStream st).finalResult = none ∧
    (startStream st).errorMsg =
      (if jsTrim st.question = "" then "Please enter a question." else "Please select a document.") ∧
    (startStream st).errorMsg ≠ "" := by
  by_cases hq : jsTrim st.question = ""
  · refine ⟨?_, ?_, ?_, ?_, ?_, ?_, ?_⟩ <;> simp [startStream, resetRun, hq]
  · rcases h with h | h
    · exact absurd h hq
    · refine ⟨?_, ?_, ?_, ?_, ?_, ?_, ?_⟩ <;> simp [startStream, resetRun, hq, h]

/-- Claim C2, witness: the amended theorem at the concrete
counterexample state. -/
theorem c2_witness :
    (startStream c2Before).openStreams = c2Before.openStreams ∧
    (startStream c2Before).events = initialEvents ∧
    (startStream c2Before).errorMsg = "Please enter a question." := by
  have h := c2_start_validation_resets_state c2Before (Or.inl (by decide))
  refine ⟨h.1, h.2.2.2.1, ?_⟩
  rw [h.2.2.2.2.2.1]
  decide

/-! ## Claim C3 -/

/-- Claim C3, counterexample: calling `resetRun` mid-run is not a
cancel — the open connection stays open, `isStreaming` stays true, and
the derived phase stays `RUNNING` instead of returning to idle. -/
theorem c3_counterexample :
    midRunState.isStreaming = true ∧
    (resetRun midRunState).refOpen = true ∧
    (resetRun midRunState).openStreams = 1 ∧
    (resetRun midRunState).isStreaming = true ∧
    overallStatus (resetRun midRunState) = "RUNNING" := by
  refine ⟨?_, ?_, ?_, ?_, ?_⟩ <;> decide

/-- Claim C3 (amended): `resetRun` reinitializes the tracker and
clears the result and error message, but performs no cancel: it leaves
the stream fields (`openStreams`, `refOpen`, `isStreaming`) untouched,
so a mid-run reset leaves the connection open and the phase
`RUNNING`. -/
theorem c3_reset_does_not_cancel (st : ControllerState) (h : st.isStreaming = true) :
    (resetRun st).events = initialEvents ∧
    (resetRun st).finalResult = none ∧
    (resetRun st).errorMsg = "" ∧
    (resetRun st).openStreams = st.openStreams ∧
    (resetRun st).refOpen = st.refOpen ∧
    (resetRun st).isStreaming = true ∧
    overallStatus (resetRun st) = "RUNNING" := by
  refine ⟨rfl, rfl, rfl, rfl, rfl, h, ?_⟩
  simp [overallStatus, resetRun, h]

/-- Claim C3, witness: the amended theorem at the concrete mid-run
state. -/
theorem c3_witness :
    (resetRun midRunState).events = initialEvents ∧
    (resetRun midRunState).openStreams = midRunState.openStreams ∧
    overallStatus (resetRun midRunState) = "RUNNING" := by
  have h := c3_reset_does_not_cancel midRunState (by decide)
  exact ⟨h.1, h.2.2.2.1, h.2.2.2.2.2.2⟩

/-! ## Claim C4 -/

/-- Claim C4, counterexample: a run that receives an unparseable
top-level `final` frame is not marked as a transport error — neither
branch of the `final` listener fires, only `stopStream()` runs, so
`errorMsg` stays empty and the derived phase falls back to `IDLE`
rather than `ERROR`. -/
theorem c4_counterexample :
    (runActions [.setQuestion "q", .setDocId "d", .clickRun, .finalEvt none]).errorMsg = "" ∧
    overallStatus (runActions [.setQuestion "q", .setDocId "d", .clickRun, .finalEvt none])
      = "IDLE" := by
  constructor <;> decide

/-- Claim C4 (amended): a malformed/unparseable `final` frame is
dropped silently except that the stream is closed: `errorMsg`,
`finalResult` and the tracker are untouched, and for a run that has
set neither an error nor a result the derived phase becomes `IDLE`,
not `ERROR`. -/
theorem c4_malformed_final_silently_closes (st : ControllerState)
    (hmsg : st.errorMsg = "") (hres : st.finalResult = none) :
    (handleFinal none st).errorMsg = "" ∧
    (handleFinal none st).finalResult = none ∧
    (handleFinal none st).isStreaming = false ∧
    (handleFinal none st).refOpen = false ∧
    (handleFinal none st).events = st.events ∧
    overallStatus (handleFinal none st) = "IDLE" := by
  obtain ⟨h1, h2, h3, h4, h5, h6⟩ := stopStream_spec st
  have hF : handleFinal none st = stopStream st := rfl
  have e1 : (handleFinal none st).isStreaming = false := by rw [hF]; exact h1
  have e2 : (handleFinal none st).refOpen = false := by rw [hF]; exact h2
  have e4 : (handleFinal none st).events = st.events := by rw [hF]; exact h4
  have e5 : (handleFinal none st).errorMsg = "" := by rw [hF, h5, hmsg]
  have e6 : (handleFinal none st).finalResult = none := by rw [hF, h6, hres]
  refine ⟨e5, e6, e1, e2, e4, ?_⟩
  simp [overallStatus, e1, e5, e6]

/-- Claim C4, witness: the amended theorem at the concrete mid-run
state. -/
theorem c4_witness :
    (handleFinal none midRunState).errorMsg = "" ∧
    (handleFinal none midRunState).finalResult = none ∧
    overallStatus (handleFinal none midRunState) = "IDLE" := by
  have h := c4_malformed_final_silently_closes midRunState (by decide) (by decide)
  exact ⟨h.1, h.2.1, h.2.2.2.2.2⟩

/-! ## Claim C5 -/

/-- A frame carrying a stage identifier the tracker does not know. -/
def plannerFrame : StageData :=
  { agent := some "planner", status := some "done", summary := none, ms := none }

/-- Claim C5, counterexample: a stage event with the unrecognized
identifier `"planner"` is not ignored — before the event the tracker
mapping has no entry at `"planner"`, afterwards it does, so the
per-stage state mapping changes. -/
theorem c5_counterexample :
    midRunState.events "planner" = none ∧
    (step midRunState (.agentEvt (some plannerFrame))).events "planner"
      = some (storedEvent "planner" plannerFrame) := by
  constructor <;> decide

/-- Claim C5 (amended): a stage event whose (truthy) identifier is not
one of the four recognized stages leaves the recognized stages'
entries unchanged, but the event is still applied: it is stored in the
mapping under its own identifier (the UI only renders the four known
stages, so the entry is retained invisibly rather than ignored). -/
theorem c5_unknown_stage_stored (st : ControllerState) (d : StageData) (a : String)
    (ha : d.agent = some a) (hne : a ≠ "")
    (hunk : ¬(a = "relevance" ∨ a = "retrieval" ∨ a = "research" ∨ a = "verify")) :
    (∀ k, (k = "relevance" ∨ k = "retrieval" ∨ k = "research" ∨ k = "verify") →
      (handleAgent (some d) st).events k = st.events k) ∧
    (handleAgent (some d) st).events a = some (storedEvent a d) := by
  constructor
  · intro k hk
    have hka : k ≠ a := by
      rintro rfl
      exact hunk hk
    simp [handleAgent, ha, hne, hka]
  · exact handleAgent_events_hit st d a ha hne

/-- Claim C5, witness: the amended theorem at the concrete `"planner"`
frame. -/
theorem c5_witness :
    (handleAgent (some plannerFrame) midRunState).events "relevance"
      = midRunState.events "relevance" ∧
    (handleAgent (some plannerFrame) midRunState).events "planner"
      = some (storedEvent "planner" plannerFrame) := by
  have h := c5_unknown_stage_stored midRunState plannerFrame "planner" rfl (by decide) (by decide)
  exact ⟨h.1 "relevance" (Or.inl rfl), h.2⟩

/-! ## Claim C6 -/

/-- Claim C6 (confirmed): on a transport-level failure the `onerror`
handler sets `errorMsg` to the (non-empty) transport-failure text, the
derived phase becomes `ERROR`, every stage other than `verify` keeps
its previous entry, and `verify` is rewritten to `error` unless its
status was already `done`, in which case it stays `done`. -/
theorem c6_transport_failure_marks_verify (st : ControllerState) :
    (handleError st).errorMsg = streamErrorMessage ∧
    streamErrorMessage ≠ "" ∧
    overallStatus (handleError st) = "ERROR" ∧
    (∀ k, k ≠ "verify" → (handleError st).events k = st.events k) ∧
    (∀ e, st.events "verify" = some e →
      (handleError st).events "verify"
        = some { e with status := if e.status = "done" then "done" else "error" }) := by
  obtain ⟨h1, h2, h3, h4, h5, h6⟩ := stopStream_spec st
  refine ⟨rfl, by decide, ?_, ?_, ?_⟩
  · simp [overallStatus, handleError, streamErrorMessage, h1]
  · intro k hk
    show (if k = "verify" then _ else (stopStream st).events k) = st.events k
    rw [if_neg hk, h4]
  · intro e he
    simp [handleError, h4, he]

/-- Claim C6, witness: the theorem instantiated mid-run, where
`verify` is still idle and hence gets marked `error`. -/
theorem c6_witness :
    (handleError midRunState).errorMsg = streamErrorMessage ∧
    overallStatus (handleError midRunState) = "ERROR" ∧
    (handleError midRunState).events "relevance" = midRunState.events "relevance" ∧
    (handleError midRunState).events "verify"
      = some { agent := "verify", status := "error", summary := none, ms := none, details := none } := by
  have h := c6_transport_failure_marks_verify midRunState
  refine ⟨h.1, h.2.2.1, h.2.2.2.1 "relevance" (by decide), ?_⟩
  have hv := h.2.2.2.2 { agent := "verify", status := "idle", summary := none, ms := none, details := none }
    (by decide)
  rw [hv]
  decide

/-! ## Claim C7 -/

/-- A final frame whose `error` field is present but empty — falsy in
the source's `if (data?.error)` test. -/
def c7EmptyErrorPayload : FinalPayload :=
  { question := "q", is_relevant := none, draft_answer := none, verification_report := none,
    sources := none, error := some "" }

/-- A final frame reporting a pipeline error. -/
def c7ErrPayload : FinalPayload :=
  { question := "q", is_relevant := none, draft_answer := none, verification_report := none,
    sources := none, error := some "boom" }

/-- A successful final frame. -/
def c7OkPayload : FinalPayload :=
  { question := "q", is_relevant := some true, draft_answer := some "ans",
    verification_report := some "ok", sources := some [], error := none }

/-- Claim C7, counterexample: a final frame whose payload carries an
`error` field that is the empty string is routed to the success
branch — the payload (error field included) is stored as the result
and the phase becomes `DONE`, not `ERROR` with the result unset. -/
theorem c7_counterexample :
    c7EmptyErrorPayload.error = some "" ∧
    (step midRunState (.finalEvt (some c7EmptyErrorPayload))).finalResult
      = some c7EmptyErrorPayload ∧
    overallStatus (step midRunState (.finalEvt (some c7EmptyErrorPayload))) = "DONE" := by
  refine ⟨rfl, ?_, ?_⟩ <;> decide

/-- Claim C7 (amended): for a run in progress (no error surfaced, no
result yet), a final frame with a non-empty `error` field yields phase
`ERROR` with `errorMsg` equal to that text, the stream closed and the
result unset; a valid payload whose `error` field is missing or empty
is stored as the result and yields phase `DONE`. -/
theorem c7_final_event_outcome (st : ControllerState) (p : FinalPayload)
    (hmsg : st.errorMsg = "") (hres : st.finalResult = none) :
    (∀ e, p.error = some e → e ≠ "" →
      (handleFinal (some p) st).errorMsg = e ∧
      (handleFinal (some p) st).finalResult = none ∧
      (handleFinal (some p) st).isStreaming = false ∧
      (handleFinal (some p) st).refOpen = false ∧
      overallStatus (handleFinal (some p) st) = "ERROR") ∧
    ((p.error = none ∨ p.error = some "") →
      (handleFinal (some p) st).finalResult = some p ∧
      (handleFinal (some p) st).errorMsg = "" ∧
      (handleFinal (some p) st).isStreaming = false ∧
      (handleFinal (some p) st).refOpen = false ∧
      overallStatus (handleFinal (some p) st) = "DONE") := by
  constructor
  · intro e he hne
    have hF : handleFinal (some p) st = stopStream { st with errorMsg := e } := by
      simp [handleFinal, he, hne]
    obtain ⟨h1, h2, h3, h4, h5, h6⟩ := stopStream_spec { st with errorMsg := e }
    have e5 : (stopStream { st with errorMsg := e }).errorMsg = e := by rw [h5]
    have e6 : (stopStream { st with errorMsg := e }).finalResult = none := by rw [h6]; exact hres
    rw [hF]
    refine ⟨e5, e6, h1, h2, ?_⟩
    simp [overallStatus, h1, e5, hne]
  · intro he
    have hF : handleFinal (some p) st = stopStream { st with finalResult := some p } := by
      rcases he with he | he <;> simp [handleFinal, he]
    obtain ⟨h1, h2, h3, h4, h5, h6⟩ := stopStream_spec { st with finalResult := some p }
    have e5 : (stopStream { st with finalResult := some p }).errorMsg = "" := by rw [h5]; exact hmsg
    have e6 : (stopStream { st with finalResult := some p }).finalResult = some p := by rw [h6]
    rw [hF]
    refine ⟨e6, e5, h1, h2, ?_⟩
    simp [overallStatus, h1, e5, e6]

/-- Claim C7, witness: the amended theorem at the concrete mid-run
state, once with a pipeline error and once with a success payload. -/
theorem c7_witness :
    (handleFinal (some c7ErrPayload) midRunState).errorMsg = "boom" ∧
    (handleFinal (some c7ErrPayload) midRunState).finalResult = none ∧
    overallStatus (handleFinal (some c7ErrPayload) midRunState) = "ERROR" ∧
    (handleFinal (some c7OkPayload) midRunState).finalResult = some c7OkPayload ∧
    overallStatus (handleFinal (some c7OkPayload) midRunState) = "DONE" := by
  have h1 := (c7_final_event_outcome midRunState c7ErrPayload (by decide) (by decide)).1
    "boom" rfl (by decide)
  have h2 := (c7_final_event_outcome midRunState c7OkPayload (by decide) (by decide)).2
    (Or.inl rfl)
  exact ⟨h1.1, h1.2.1, h1.2.2.2.2, h2.1, h2.2.2.2.2⟩

/-! ## Claim C8 -/

/-- Claim C8 (confirmed): after feeding any sequence of `agent` frames
through the listener, the tracker entry for a stage `a` is exactly the
stored form of the last frame addressed to `a` (overwrite semantics) —
and the prior entry when no frame addressed `a`.  The result depends
only on the subsequence of frames for `a`, so it is independent of how
frames for different stages interleave. -/
theorem c8_snapshot_is_last_event_per_stage (ds : List StageData) (st : ControllerState)
    (a : String) (ha : a ≠ "") :
    (applyAll ds st).events a = trackedAfter a ds (st.events a) := by
  induction ds generalizing st with
  | nil => rfl
  | cons d ds ih =>
    have hstep : applyAll (d :: ds) st = applyAll ds (handleAgent (some d) st) := rfl
    rw [hstep, ih (handleAgent (some d) st)]
    unfold trackedAfter
    have hfold : lastStageEvent a (d :: ds)
        = match lastStageEvent a ds with
          | some x => some x
          | none => lastUpd a none d := by
      show ds.foldl (lastUpd a) (lastUpd a none d) = _
      exact lastUpd_foldl a ds (lastUpd a none d)
    rw [hfold]
    cases hl : lastStageEvent a ds with
    | some x => rfl
    | none =>
      by_cases hd : d.agent = some a
      · rw [handleAgent_events_hit st d a hd ha]
        simp [lastUpd, hd]
      · rw [handleAgent_events_miss st d a hd]
        simp [lastUpd, hd]

/-- An interleaved frame sequence: relevance runs, retrieval runs,
then relevance finishes. -/
def c8Frames : List StageData :=
  [ { agent := some "relevance", status := some "running", summary := none, ms := none },
    { agent := some "retrieval", status := some "running", summary := none, ms := none },
    { agent := some "relevance", status := some "done", summary := some "ok", ms := some 12 } ]

/-- Claim C8, witness: the theorem at a concrete interleaved frame
list; the relevance entry is the stored form of the last relevance
frame. -/
theorem c8_witness :
    (applyAll c8Frames initState).events "relevance"
      = trackedAfter "relevance" c8Frames (initState.events "relevance") ∧
    trackedAfter "relevance" c8Frames (initState.events "relevance")
      = some (storedEvent "relevance"
          { agent := some "relevance", status := some "done", summary := some "ok", ms := some 12 }) := by
  refine ⟨c8_snapshot_is_last_event_per_stage c8Frames initState "relevance" (by decide), ?_⟩
  decide

/-! ## Claim C9 -/

/-- Claim C9 (confirmed): an `agent` frame that is unparseable or
whose `agent` field is falsy (absent or empty) is dropped: the whole
component state — tracker mapping included — is unchanged and the
derived phase does not transition. -/
theorem c9_malformed_stage_event_dropped (st : ControllerState) (frame : Option StageData)
    (h : frame = none ∨ ∃ d, frame = some d ∧ (d.agent = none ∨ d.agent = some "")) :
    handleAgent frame st = st ∧
    overallStatus (handleAgent frame st) = overallStatus st ∧
    (handleAgent frame st).events = st.events := by
  have h1 : handleAgent frame st = st := by
    rcases h with rfl | ⟨d, rfl, hd | hd⟩
    · rfl
    · simp [handleAgent, hd]
    · simp [handleAgent, hd]
  exact ⟨h1, by rw [h1], by rw [h1]⟩

/-- A stage frame lacking its `agent` field. -/
def agentlessFrame : StageData :=
  { agent := none, status := some "done", summary := some "x", ms := none }

/-- Claim C9, witness: the theorem at a concrete agent-less frame
delivered mid-run. -/
theorem c9_witness :
    handleAgent (some agentlessFrame) midRunState = midRunState ∧
    overallStatus (handleAgent (some agentlessFrame) midRunState)
      = overallStatus midRunState := by
  have h := c9_malformed_stage_event_dropped midRunState (some agentlessFrame)
    (Or.inr ⟨agentlessFrame, rfl, Or.inl rfl⟩)
  exact ⟨h.1, h.2.1⟩

/-! ## Claim C10 -/

/-- Claim C10 (confirmed): an `agent` frame with a truthy `agent`
field but a falsy `status` (absent or empty) is still applied, and the
stored status defaults to `"running"` — the previous status is
overwritten, not retained. -/
theorem c10_missing_status_defaults_to_running (st : ControllerState) (d : StageData)
    (a : String) (ha : d.agent = some a) (hne : a ≠ "")
    (hs : d.status = none ∨ d.status = some "") :
    (handleAgent (some d) st).events a
      = some { agent := a, status := "running", summary := d.summary, ms := d.ms,
               details := some d } := by
  have hc : coerceStatus d.status = "running" := by
    rcases hs with hs | hs <;> simp [coerceStatus, hs]
  rw [handleAgent_events_hit st d a ha hne]
  simp [storedEvent, hc]

/-- A retrieval frame with no `status` field. -/
def statuslessFrame : StageData :=
  { agent := some "retrieval", status := none, summary := some "fetching", ms := none }

/-- Claim C10, witness: the theorem at a concrete status-less frame
delivered mid-run; the stored status is `"running"`. -/
theorem c10_witness :
    (handleAgent (some statuslessFrame) midRunState).events "retrieval"
      = some { agent := "retrieval", status := "running", summary := some "fetching",
               ms := none, details := some statuslessFrame } :=
  c10_missing_status_defaults_to_running midRunState statuslessFrame "retrieval"
    rfl (by decide) (Or.inl rfl)

end AgenticDochat
